import Mathlib

/-!
# Verification of the RigTools repository's specification

This file gives a shallow embedding of the scene-mutating logic of the
RigTools Maya scripts and proves (or refutes) the specification's claims
about them.

Modelling conventions:
* Maya scene state observed by the scripts (object existence, parents,
  short names, constraint weight lists, measured distances, ...) is an
  explicit environment record passed to each embedded function.
* Scene mutations (`createNode`, `setAttr`, `connectAttr`, constraints,
  prints, ...) are recorded as an explicit list of `Effect`s.
* `cmds.error` and raised Python exceptions become `Except.error`.
* Numeric attribute values are rationals.
* The evaluation behaviour of the Maya dependency-graph nodes used by the
  scripts (`condition`, `multDoubleLinear`, `multiplyDivide`,
  `blendColors`) is modelled from the host's node documentation; only the
  operations the scripts configure are relied upon.
-/

/-- Embedding of `_sanitize_node_name`'s single `str.replace(ch, '_')` step
(`src/IKFollowSystem.py`, line 20): a one-character pattern replace is a
character map. -/
def replaceChar (ch : Char) (s : List Char) : List Char :=
  s.map (fun c => if c = ch then '_' else c)

/-- The characters `_sanitize_node_name` treats as unsafe
(`src/IKFollowSystem.py`, line 19). -/
def unsafeChars : List Char :=
  ['|', ':', ' ', '-', '.']

/-- Embedding of `_sanitize_node_name` (`src/IKFollowSystem.py`, lines 17-21):
sequentially replaces each unsafe character with an underscore. -/
def sanitize_node_name (name : List Char) : List Char :=
  unsafeChars.foldl (fun n ch => replaceChar ch n) name

/-- `_sanitize_node_name` on `String`s. -/
def sanitizeStr (s : String) : String :=
  String.mk (sanitize_node_name s.data)

/-- Python's `str.lower()` over the ASCII names the scripts handle:
a character map. -/
def strLower (s : String) : String :=
  String.mk (s.data.map Char.toLower)

/-- Python's `str.upper()` over the ASCII names the scripts handle:
a character map. -/
def strUpper (s : String) : String :=
  String.mk (s.data.map Char.toUpper)

/-- The pointwise effect of the five sequential replaces. -/
def sanitizeChar (c : Char) : Char :=
  if c = '.' then '_' else
  if c = '-' then '_' else
  if c = ' ' then '_' else
  if c = ':' then '_' else
  if c = '|' then '_' else c

/-- An attribute plug `node.attr`, as built by the scripts' f-strings. -/
abbrev Plug := String × String

/-- The scene mutations the embedded scripts can perform.  Each constructor
records one host API call that changes the scene (queries are read from the
environment instead). -/
inductive Effect where
  | createNode (ty nodeName : String)
  | setAttr (plug : Plug) (v : ℚ)
  | setAttrStr (plug : Plug) (v : String)
  | setKeyable (plug : Plug)
  | addAttr (node attr : String)
  | connectAttr (src dst : Plug)
  | disconnectAttr (src dst : Plug)
  | parentConstrain (targets : List String) (driven : String) (mo : Bool) (conName : String)
  | pointConstrain (target driven : String)
  | matchTransform (target dest : String)
  | renameObj (obj newName : String)
  | selectObjs (objs : List String)
  | copyKey (obj : String)
  | pasteKey (obj : String)
  | printMsg (msg : String)
deriving DecidableEq, Repr

/-- Dependency-graph state accumulated from a list of effects: created node
types, directly set values, and connections (`(destination, source)` pairs,
most recent first). -/
structure DGState where
  nodeTypes : List (String × String)
  setVals : List (Plug × ℚ)
  conns : List (Plug × Plug)
deriving Repr

/-- First value bound to a key in an association list (most recent first). -/
def assocFind {α β : Type} [DecidableEq α] : List (α × β) → α → Option β
  | [], _ => none
  | (k, v) :: rest, key => if key = k then some v else assocFind rest key

/-- How one effect updates the dependency-graph state. -/
def applyEffect (st : DGState) : Effect → DGState
  | .createNode ty n => { st with nodeTypes := (n, ty) :: st.nodeTypes }
  | .setAttr p v => { st with setVals := (p, v) :: st.setVals }
  | .connectAttr src dst => { st with conns := (dst, src) :: st.conns }
  | .disconnectAttr src dst =>
      { st with conns := st.conns.filter (fun e => !(e.1 = dst && e.2 = src)) }
  | _ => st

/-- Dependency-graph state reached after a list of effects. -/
def buildState (es : List Effect) : DGState :=
  es.foldl applyEffect ⟨[], [], []⟩

/-- `outColorR` of a Maya `condition` node (modelled from the host's node
documentation; the scripts only configure operations 0 = Equal and
2 = Greater). -/
def conditionOutColorR (op first second cTrue cFalse : ℚ) : ℚ :=
  if op = 0 then (if first = second then cTrue else cFalse)
  else if op = 1 then (if first ≠ second then cTrue else cFalse)
  else if op = 2 then (if first > second then cTrue else cFalse)
  else if op = 3 then (if first ≥ second then cTrue else cFalse)
  else if op = 4 then (if first < second then cTrue else cFalse)
  else if op = 5 then (if first ≤ second then cTrue else cFalse)
  else cFalse

/-- `output` of a Maya `multDoubleLinear` node. -/
def multDoubleLinearOutput (i1 i2 : ℚ) : ℚ := i1 * i2

/-- `outputX` of a Maya `multiplyDivide` node (operation 1 = multiply,
2 = divide; the scripts only configure operation 2). -/
def multiplyDivideOutputX (op i1 i2 : ℚ) : ℚ :=
  if op = 1 then i1 * i2
  else if op = 2 then i1 / i2
  else i1

/-- `outputR` of a Maya `blendColors` node:
`color1 * blender + color2 * (1 - blender)`. -/
def blendColorsOutputR (c1 c2 blender : ℚ) : ℚ :=
  c1 * blender + c2 * (1 - blender)

mutual

/-- Value carried by a destination plug: the connected source's output if the
plug is connected, else a value set by the effects, else the external scene
value (`ext` models attribute values the scripts did not set, e.g. an
animated enum or a measured distance).  `fuel` bounds the evaluation depth. -/
def plugValue (st : DGState) (ext : Plug → Option ℚ) : Nat → Plug → Option ℚ
  | 0, _ => none
  | Nat.succ fuel, plug =>
    match assocFind st.conns plug with
    | some src => srcValue st ext fuel src
    | none =>
      match assocFind st.setVals plug with
      | some v => some v
      | none => ext plug

/-- Output value of a source plug, computed from the source node's type. -/
def srcValue (st : DGState) (ext : Plug → Option ℚ) : Nat → Plug → Option ℚ
  | 0, _ => none
  | Nat.succ fuel, (node, attr) =>
    match assocFind st.nodeTypes node with
    | some "condition" =>
      if attr = "outColorR" then do
        let op ← plugValue st ext fuel (node, "operation")
        let ft ← plugValue st ext fuel (node, "firstTerm")
        let st2 ← plugValue st ext fuel (node, "secondTerm")
        let ct ← plugValue st ext fuel (node, "colorIfTrueR")
        let cf ← plugValue st ext fuel (node, "colorIfFalseR")
        some (conditionOutColorR op ft st2 ct cf)
      else plugValue st ext fuel (node, attr)
    | some "multDoubleLinear" =>
      if attr = "output" then do
        let i1 ← plugValue st ext fuel (node, "input1")
        let i2 ← plugValue st ext fuel (node, "input2")
        some (multDoubleLinearOutput i1 i2)
      else plugValue st ext fuel (node, attr)
    | some "multiplyDivide" =>
      if attr = "outputX" then do
        let op ← plugValue st ext fuel (node, "operation")
        let i1 ← plugValue st ext fuel (node, "input1X")
        let i2 ← plugValue st ext fuel (node, "input2X")
        some (multiplyDivideOutputX op i1 i2)
      else plugValue st ext fuel (node, attr)
    | some "blendColors" =>
      if attr = "outputR" then do
        let c1 ← plugValue st ext fuel (node, "color1R")
        let c2 ← plugValue st ext fuel (node, "color2R")
        let b ← plugValue st ext fuel (node, "blender")
        some (blendColorsOutputR c1 c2 b)
      else plugValue st ext fuel (node, attr)
    | _ => plugValue st ext fuel (node, attr)

end

/-- Scene observations made by `addIKFollowSystem` (`src/IKFollowSystem.py`):
object existence, `listRelatives(parent=True)` results, `ls(obj, sn=True)`
results, `attributeQuery` results, the constraint's weight-alias and target
lists, and existing incoming connections on a weight plug. -/
structure IKEnv where
  objExists : String → Bool
  listRelativesParent : String → List String
  lsShortName : String → List String
  attrExists : String → String → Bool
  pconWeights : List String
  pconTargets : Option (List String)
  listConnections : Plug → List Plug

/-- Which of the `try`-wrapped host calls in `addIKFollowSystem`
(`src/IKFollowSystem.py`, lines 135-177) raise, per weight index. -/
structure ConnFail where
  connectFollowTarget : Nat → Bool
  setMdlInput2 : Nat → Bool
  connectCondToMdl : Nat → Bool
  disconnectW : Nat → Plug → Bool
  connectMdlToWeight : Nat → Bool
  connectCondToWeight : Nat → Bool

/-- The oracle under which no `try`-wrapped call raises. -/
def noFail : ConnFail :=
  ⟨fun _ => false, fun _ => false, fun _ => false, fun _ _ => false,
   fun _ => false, fun _ => false⟩

/-- Embedding of `_safe_short_name` (`src/IKFollowSystem.py`, lines 12-14):
first `ls(obj, sn=True)` result, or the object name itself. -/
def safe_short_name (env : IKEnv) (obj : String) : String :=
  (env.lsShortName obj).headD obj

/-- The explicit target mapping of `addIKFollowSystem`
(`src/IKFollowSystem.py`, lines 100-107): compare the target's lowercased
short name against those of the three controls; the enum values are
COG = 1, Transform = 2, World = 3. -/
def matchTargetEnum (target_sn cog_sn trans_sn world_sn : String) : Option ℚ :=
  if target_sn = cog_sn then some 1
  else if target_sn = trans_sn then some 2
  else if target_sn = world_sn then some 3
  else none

/-- The fallback substring matching of `addIKFollowSystem`
(`src/IKFollowSystem.py`, lines 108-115): Python's `in` on strings is
substring containment over the lowercased weight label. -/
def matchLabelEnum (label_lower : List Char)
    (cog_sn trans_sn world_sn : String) : Option ℚ :=
  if cog_sn.data <:+: label_lower then some 1
  else if trans_sn.data <:+: label_lower then some 2
  else if world_sn.data <:+: label_lower then some 3
  else none

/-- The weight label `weight.split("W")[0]` of `addIKFollowSystem`
(`src/IKFollowSystem.py`, line 95): the characters before the first `W`
(the whole alias when it has no `W`). -/
def followLabel (weight : String) : String :=
  String.mk (weight.data.takeWhile (fun c => c ≠ 'W'))

/-- Embedding of the per-weight target matching in `addIKFollowSystem`
(`src/IKFollowSystem.py`, lines 89-119): map the weight to an enum value via
the constraint's target list when available (and non-empty, per Python
truthiness), else by substring matching on the lowercased weight label; the
enum values are COG = 1, Transform = 2, World = 3. -/
def weightEnumVal (env : IKEnv) (cog_ctrl trans_ctrl world_ctrl : String)
    (idx : Nat) (weight : String) : Option ℚ :=
  let cog_sn := strLower (safe_short_name env cog_ctrl)
  let trans_sn := strLower (safe_short_name env trans_ctrl)
  let world_sn := strLower (safe_short_name env world_ctrl)
  let label := followLabel weight
  let target_obj : Option String :=
    match env.pconTargets with
    | some ts => if ts = [] then none else ts[idx]?
    | none => none
  match target_obj with
  | some t => matchTargetEnum (strLower (safe_short_name env t)) cog_sn
      trans_sn world_sn
  | none => matchLabelEnum (strLower label).data cog_sn trans_sn world_sn

/-- The `safe_label` of `addIKFollowSystem` (`src/IKFollowSystem.py`,
line 121). -/
def followSafeLabel (ik_ctrl weight : String) : String :=
  sanitizeStr (sanitizeStr ik_ctrl ++ "_" ++ strUpper (followLabel weight))

/-- Name of the `condition` node created for one constraint weight
(`src/IKFollowSystem.py`, line 126). -/
def followCondName (ik_ctrl weight : String) : String :=
  followSafeLabel ik_ctrl weight ++ "_Follow_COND"

/-- Name of the `multDoubleLinear` node created for one constraint weight
(`src/IKFollowSystem.py`, line 147). -/
def followMdlName (ik_ctrl weight : String) : String :=
  followSafeLabel ik_ctrl weight ++ "_Follow_MDL"

/-- Embedding of one iteration of the weight loop in `addIKFollowSystem`
(`src/IKFollowSystem.py`, lines 89-177): skip unmatched weights; otherwise
create a `condition` node (operation Equal, second term the matched enum
value, colours 1/0), connect the enum attribute to its first term, create a
`multDoubleLinear` node with second input 1, chain condition → multiplier →
constraint weight, breaking existing incoming connections on the weight;
each `try`-wrapped call is skipped when the failure oracle says it raises. -/
def processWeight (env : IKEnv) (fail : ConnFail) (ik_ctrl pcon : String)
    (cog_ctrl trans_ctrl world_ctrl : String) (idx : Nat) (weight : String) :
    List Effect :=
  match weightEnumVal env cog_ctrl trans_ctrl world_ctrl idx weight with
  | none => []
  | some e =>
    let cond := followCondName ik_ctrl weight
    let mdl := followMdlName ik_ctrl weight
    [Effect.createNode "condition" cond,
     Effect.setAttr (cond, "operation") 0,
     Effect.setAttr (cond, "secondTerm") e,
     Effect.setAttr (cond, "colorIfTrueR") 1,
     Effect.setAttr (cond, "colorIfFalseR") 0]
    ++ (if fail.connectFollowTarget idx then [] else
        [Effect.connectAttr (ik_ctrl, "FollowTarget") (cond, "firstTerm")])
    ++ [Effect.createNode "multDoubleLinear" mdl]
    ++ (if fail.setMdlInput2 idx then [] else [Effect.setAttr (mdl, "input2") 1])
    ++ (if fail.connectCondToMdl idx then [] else
        [Effect.connectAttr (cond, "outColorR") (mdl, "input1")])
    ++ (env.listConnections (pcon, weight)).flatMap (fun src =>
        if fail.disconnectW idx src then [] else
        [Effect.disconnectAttr src (pcon, weight)])
    ++ (if fail.connectMdlToWeight idx then
          (if fail.connectCondToWeight idx then [] else
           [Effect.connectAttr (cond, "outColorR") (pcon, weight)])
        else [Effect.connectAttr (mdl, "output") (pcon, weight)])

/-- Embedding of `addIKFollowSystem` (`src/IKFollowSystem.py`, lines 24-179):
`cmds.error` on a missing control or an ungrouped IK control; otherwise add
the `FollowTarget` enum attribute when missing, create the parent constraint
on the IK control's group, process every constraint weight, and print the
closing status message. -/
def addIKFollowSystem (env : IKEnv) (fail : ConnFail)
    (ik_ctrl cog_ctrl trans_ctrl world_ctrl : String) :
    Except String (List Effect) :=
  match [ik_ctrl, cog_ctrl, trans_ctrl, world_ctrl].find?
      (fun obj => !env.objExists obj) with
  | some obj => .error (obj ++ " does not exist.")
  | none =>
    match env.listRelativesParent ik_ctrl with
    | [] => .error "IK control must be grouped."
    | grp :: _ =>
      let attrEffects : List Effect :=
        if env.attrExists ik_ctrl "FollowTarget" then [] else
          [Effect.addAttr ik_ctrl "FollowTarget",
           Effect.setAttr (ik_ctrl, "FollowTarget") 0]
      let pcon := sanitizeStr ik_ctrl ++ "_Follow_PCon"
      let weightEffects := env.pconWeights.enum.flatMap (fun p =>
        processWeight env fail ik_ctrl pcon cog_ctrl trans_ctrl world_ctrl p.1 p.2)
      .ok (attrEffects
        ++ [Effect.parentConstrain [cog_ctrl, trans_ctrl, world_ctrl] grp true pcon]
        ++ weightEffects
        ++ [Effect.printMsg ("Follow system added to " ++ ik_ctrl)])

/-- Scene observations made by `StretchSystemTool`
(`src/Rigging Tools/StretchSystemTool.py`): object existence,
`listRelatives(parent=True)` results, `attributeQuery` results, the
world-space distance between two objects' positions (`math.dist` over
`xform` queries, kept abstract because it involves a square root of scene
data), and whether the `try`-wrapped metadata block raises. -/
structure StretchEnv where
  objExists : String → Bool
  listRelativesParent : String → List String
  attrExists : String → String → Bool
  xformDist : String → String → ℚ
  metaFails : Bool

/-- Base name for the stretch system's nodes
(`src/Rigging Tools/StretchSystemTool.py`, lines 59-60). -/
def stretchBaseName (start_jnt : String) (name : Option String) : String :=
  name.getD (start_jnt ++ "_stretch")

/-- The IK handle transform resolution of `create_stretch_ik_chain`
(`src/Rigging Tools/StretchSystemTool.py`, lines 63-69): the parent returned
by `listRelatives(parent=True)` when the handle exists and has one, else the
handle itself. -/
def stretchIkTransform (env : StretchEnv) (ik_handle : String) : String :=
  if env.objExists ik_handle then
    match env.listRelativesParent ik_handle with
    | [] => ik_handle
    | p :: _ => p
  else ik_handle

/-- Locator, distance, divide, condition and blend node names generated by
`create_stretch_ik_chain` (`src/Rigging Tools/StretchSystemTool.py`,
lines 74-147). -/
def stretchLocStart (nm : String) : String := nm ++ "_loc_start_loc"

/-- See `stretchLocStart`. -/
def stretchLocEnd (nm : String) : String := nm ++ "_loc_end_loc"

/-- See `stretchLocStart`. -/
def stretchDistNode (nm : String) : String := nm ++ "_distance"

/-- See `stretchLocStart`. -/
def stretchMdNode (nm : String) : String := nm ++ "_md_divide"

/-- See `stretchLocStart`. -/
def stretchCondNode (nm : String) : String := nm ++ "_cond"

/-- See `stretchLocStart`. -/
def stretchBlendNode (nm : String) : String := nm ++ "_blend"

/-- Embedding of `create_stretch_ik_chain`
(`src/Rigging Tools/StretchSystemTool.py`, lines 41-195), in-Maya path:
locators point-constrained to the end joints feed a `distanceBetween` node;
a `multiplyDivide` node (operation 2 = divide) divides the distance by the
rest length `dist(start,mid) + dist(mid,end)`; a `condition` node
(operation 2 = Greater, second term 1.0) clamps the ratio from below by 1; a
`blendColors` node (color1R = 1.0, blender driven by the IK transform's
`stretch` attribute) blends it, and its `outputR` drives `scaleX` of the
start and mid joints.  `clamp_min` is accepted and unused, as in the
source. -/
def create_stretch_ik_chain (env : StretchEnv)
    (ik_handle start_jnt mid_jnt end_jnt : String) (name : Option String)
    (clamp_min add_attr : Bool) : List Effect :=
  let nm := stretchBaseName start_jnt name
  let ik_transform := stretchIkTransform env ik_handle
  let loc_start := stretchLocStart nm
  let loc_end := stretchLocEnd nm
  let dist_node := stretchDistNode nm
  let md_node := stretchMdNode nm
  let cond_node := stretchCondNode nm
  let blend_node := stretchBlendNode nm
  let rest_length := env.xformDist start_jnt mid_jnt + env.xformDist mid_jnt end_jnt
  (if env.objExists loc_start then [] else [Effect.createNode "spaceLocator" loc_start])
  ++ (if env.objExists loc_end then [] else [Effect.createNode "spaceLocator" loc_end])
  ++ [Effect.pointConstrain start_jnt loc_start,
      Effect.pointConstrain end_jnt loc_end]
  ++ (if env.objExists dist_node then [] else [Effect.createNode "distanceBetween" dist_node])
  ++ [Effect.connectAttr (loc_start, "worldMatrix[0]") (dist_node, "inMatrix1"),
      Effect.connectAttr (loc_end, "worldMatrix[0]") (dist_node, "inMatrix2")]
  ++ (if env.objExists md_node then [] else [Effect.createNode "multiplyDivide" md_node])
  ++ [Effect.setAttr (md_node, "operation") 2,
      Effect.connectAttr (dist_node, "distance") (md_node, "input1X"),
      Effect.setAttr (md_node, "input2X") rest_length]
  ++ (if env.objExists cond_node then [] else [Effect.createNode "condition" cond_node])
  ++ [Effect.connectAttr (md_node, "outputX") (cond_node, "firstTerm"),
      Effect.setAttr (cond_node, "secondTerm") 1,
      Effect.setAttr (cond_node, "operation") 2,
      Effect.connectAttr (md_node, "outputX") (cond_node, "colorIfTrueR"),
      Effect.setAttr (cond_node, "colorIfFalseR") 1]
  ++ (if env.objExists blend_node then [] else [Effect.createNode "blendColors" blend_node])
  ++ [Effect.setAttr (blend_node, "color1R") 1,
      Effect.connectAttr (cond_node, "outColorR") (blend_node, "color2R")]
  ++ (if add_attr then
        (if env.attrExists ik_transform "stretch" then [] else
          [Effect.addAttr ik_transform "stretch",
           Effect.setKeyable (ik_transform, "stretch")])
        ++ [Effect.connectAttr (ik_transform, "stretch") (blend_node, "blender")]
      else [])
  ++ [Effect.connectAttr (blend_node, "outputR") (start_jnt, "scaleX"),
      Effect.connectAttr (blend_node, "outputR") (mid_jnt, "scaleX")]
  ++ (if env.metaFails then [] else
        (if env.attrExists start_jnt "stretchSystem" then [] else
          [Effect.addAttr start_jnt "stretchSystem"])
        ++ [Effect.setAttrStr (start_jnt, "stretchSystem") nm])

/-- Embedding of `create_from_selection`
(`src/Rigging Tools/StretchSystemTool.py`, lines 198-215), in-Maya path:
raise `RuntimeError` when fewer than 4 objects are selected, else build the
stretch chain with the first three selected as joints and the fourth as the
IK handle. -/
def create_from_selection (env : StretchEnv) (sel : List String)
    (name : Option String) : Except String (List Effect) :=
  if sel.length < 4 then
    .error "Select start, mid, end joints and an IK handle (4 items)."
  else
    .ok (create_stretch_ik_chain env (sel.getD 3 "") (sel.getD 0 "")
      (sel.getD 1 "") (sel.getD 2 "") name true true)

/-- Outcome of running one UI-triggered operation: the scene effects it
performed, the warnings and prints it emitted, and the exception it raised,
if any (`cmds.error` and `RuntimeError` both raise). -/
structure RunResult where
  effects : List Effect
  messages : List String
  raised : Option String
deriving DecidableEq, Repr

/-- Which effects modify the scene document (selection changes, prints and
key copies to the clipboard do not). -/
def modifiesScene : Effect → Bool
  | .selectObjs _ => false
  | .copyKey _ => false
  | .printMsg _ => false
  | _ => true

/-- Embedding of `matchTransforms`
(`src/Rigging Tools/MatchTransformTool.py`, lines 20-25): `cmds.error`
(which raises) unless exactly two objects are selected, else one
`MatchTransform` call. -/
def matchTransforms (sel : List String) : RunResult :=
  if sel.length ≠ 2 then ⟨[], [], some "Please select two objects"⟩
  else ⟨[Effect.matchTransform (sel.getD 0 "") (sel.getD 1 "")], [], none⟩

/-- Embedding of `_get_parent_and_children`
(`src/RigRefineTools/ConstrainTool.py`, lines 5-10): warn and return
`(None, [])` when fewer than two objects are selected, else split the
selection into parent and children.  The second component is the warning
list. -/
def get_parent_and_children (sel : List String) :
    (Option String × List String) × List String :=
  if sel.length < 2 then
    ((none, []), ["Select parent first, then one or more children."])
  else ((sel.head?, sel.drop 1), [])

/-- Embedding of `createParentConstraint`
(`src/RigRefineTools/ConstrainTool.py`, lines 12-21): return silently when
the selection check failed, else constrain each child, warning (and
continuing) on each constraint failure; `conFails` says which
`parentConstraint` calls raise. -/
def createParentConstraintTool (sel : List String) (mo : Bool)
    (conFails : String → Bool) : RunResult :=
  let pc := get_parent_and_children sel
  match pc.1.1, pc.1.2 with
  | none, _ => ⟨[], pc.2, none⟩
  | some _, [] => ⟨[], pc.2, none⟩
  | some parent, child :: rest =>
      let children := child :: rest
      ⟨children.flatMap (fun c =>
          if conFails c then [] else [Effect.parentConstrain [parent] c mo ""]),
       pc.2 ++ children.filterMap (fun c =>
          if conFails c then
            some ("ParentConstraint failed: " ++ parent ++ " -> " ++ c)
          else none),
       none⟩

/-- Embedding of `kfAT_Obj` (`src/Animation Tools/kfAnimTransfer.py`,
lines 52-68): with at least two objects selected, copy the first object's
keys and paste them on every other selected object (re-selecting the first
and toggling it out reproduces `pasteSel = sel[1:]` for a duplicate-free
selection list, which is what `cmds.ls(selection=True)` returns); otherwise
print a FAIL message and do nothing. -/
def kfAT_Obj (sel : List String) : RunResult :=
  if sel.length > 1 then
    let copySel := sel.take 1
    let pasteSel := sel.drop 1
    ⟨[Effect.selectObjs copySel, Effect.selectObjs sel,
      Effect.selectObjs pasteSel, Effect.copyKey (sel.getD 0 "")]
      ++ pasteSel.map Effect.pasteKey, [], none⟩
  else ⟨[], ["\n\nFAIL: Please select at least 2 Objects\n\n"], none⟩

/-- Embedding of `renameLeftJoints`
(`src/Rigging Tools/JoinCreationTools/JointRenameTool.py`, lines 3-5):
rename the first selected object to `L_jnt_`; with an empty selection,
`selection[0]` raises an unreported `IndexError`. -/
def renameLeftJoints (sel : List String) : RunResult :=
  match sel with
  | [] => ⟨[], [], some "IndexError: list index out of range"⟩
  | s :: _ => ⟨[Effect.renameObj s "L_jnt_"], [], none⟩

/-- `_sanitize_node_name` as it runs inside Maya: the ambient scene is
available to it (like to every function of the repository) but its body
makes no host API call, so the scene is unused. -/
def sanitizeInScene (_scene : IKEnv) (name : String) : String :=
  sanitizeStr name

/-- Whether an embedded operation raised (`cmds.error` / `RuntimeError`). -/
def raisesError {α : Type} : Except String α → Bool
  | .error _ => true
  | .ok _ => false

/-- The global names defined by the module `src/Rigging Tools/ColorToCurve.py`
(its import and its five functions); `changeObjColor` is referenced but
never defined. -/
def colorToCurveGlobals : List String :=
  ["cmds", "enableColorOveride", "selectCurvesObj", "selectObj",
   "changeCurveColor", "changeJointColor", "createUI"]

/-- Embedding of `changeCurveColor`
(`src/Rigging Tools/ColorToCurve.py`, lines 15-26): out-of-range colours
only print a range message; in-range colours set `overrideEnabled` and
`overrideColor` on every shape of every selected object (objects without
shapes are skipped).  Afterwards line 26 evaluates the bare name
`changeObjColor`, which raises `NameError` whenever that name is not among
the defined globals. -/
def changeCurveColor (color : Int) (sel : List String)
    (listShapes : String → List String) (globals : List String) : RunResult :=
  let branch : List Effect × List String :=
    if color < 0 ∨ color > 31 then
      ([], ["Value outside range, please enter value 0-31"])
    else
      (sel.flatMap (fun obj => (listShapes obj).flatMap (fun shape =>
        [Effect.setAttr (shape, "overrideEnabled") 1,
         Effect.setAttr (shape, "overrideColor") (color : ℚ)])), [])
  if "changeObjColor" ∈ globals then ⟨branch.1, branch.2, none⟩
  else ⟨branch.1, branch.2, some "NameError: name changeObjColor is not defined"⟩

/-- Embedding of the curve parameter assigned to the `idx`-th control in
`attach_ctrls_to_curve`
(`src/Rigging Tools/JoinCreationTools/SplineTool.py`, lines 98-106):
`t = 0.0 if n == 1 else idx / (n - 1)`, `param = t * spans`. -/
def ctrlParam (n idx : Nat) (spans : ℚ) : ℚ :=
  let t : ℚ := if n = 1 then 0 else (idx : ℚ) / ((n : ℚ) - 1)
  t * spans

/-- The curve parameters assigned to the controls of a joint chain by
`attach_ctrls_to_curve`, in joint order. -/
def attachParams (joint_chain : List String) (spans : ℚ) : List ℚ :=
  (List.range joint_chain.length).map (fun idx =>
    ctrlParam joint_chain.length idx spans)

mutual

/-- A joint hierarchy as observed through
`listRelatives(children=True, type='joint')`: a joint name and its joint
children in `listRelatives` order. -/
inductive JTree where
  | node (jointName : String) (children : JForest)

/-- A list of sibling joint subtrees. -/
inductive JForest where
  | nil
  | cons (t : JTree) (rest : JForest)

end

mutual

/-- Embedding of `_walk` in `get_joint_chain`
(`src/Rigging Tools/JoinCreationTools/SplineTool.py`, lines 18-23):
append the joint to the accumulated chain, then walk each joint child. -/
def walkJoint : JTree → List String → List String
  | .node j cs, chain => walkChildren cs (chain ++ [j])

/-- The `for c in children: _walk(c)` loop of `_walk`. -/
def walkChildren : JForest → List String → List String
  | .nil, chain => chain
  | .cons c rest, chain => walkChildren rest (walkJoint c chain)

end

/-- Embedding of `get_joint_chain`
(`src/Rigging Tools/JoinCreationTools/SplineTool.py`, lines 16-26):
walk the hierarchy when the root exists and has node type `joint`, else
return the empty list.  `ex` is the `objExists` result and `nt` the
`nodeType` result for the root; `t` is the root's joint hierarchy. -/
def get_joint_chain (ex : Bool) (nt : String) (t : JTree) : List String :=
  if ex = true ∧ nt = "joint" then walkJoint t [] else []

mutual

/-- Depth-first pre-order traversal of a joint hierarchy (the
specification-side description of `get_joint_chain`'s output). -/
def preorder : JTree → List String
  | .node j cs => j :: preorderForest cs

/-- Pre-order traversal of a forest of sibling subtrees. -/
def preorderForest : JForest → List String
  | .nil => []
  | .cons c rest => preorder c ++ preorderForest rest

end

/-- The dependency-graph state reached by one successful iteration of the
weight loop of `addIKFollowSystem`, written out: the `condition` and
`multDoubleLinear` nodes, their set attributes, and the chain
`FollowTarget → condition.firstTerm`, `condition.outColorR → mdl.input1`,
`mdl.output → constraint weight`. -/
def followChainState (ik cond mdl pcon w : String) (e : ℚ) : DGState :=
  ⟨[(mdl, "multDoubleLinear"), (cond, "condition")],
   [((mdl, "input2"), 1), ((cond, "colorIfFalseR"), 0),
    ((cond, "colorIfTrueR"), 1), ((cond, "secondTerm"), e),
    ((cond, "operation"), 0)],
   [((pcon, w), (mdl, "output")), ((mdl, "input1"), (cond, "outColorR")),
    ((cond, "firstTerm"), (ik, "FollowTarget"))]⟩

/-- External scene values for evaluating a follow chain: the IK control's
`FollowTarget` enum carries the animated value `v`; everything else is
unset. -/
def followExt (ik : String) (v : ℚ) : Plug → Option ℚ :=
  fun p => if p = (ik, "FollowTarget") then some v else none

/-- The dependency-graph state reached by `create_stretch_ik_chain` on a
clean scene, written out: locators feeding a `distanceBetween` node, the
divide / clamp / blend nodes with their set attributes, and the blend output
driving both joints' `scaleX`. -/
def stretchChainState (start_jnt mid_jnt ik_transform loc_s loc_e dist md
    cond blend : String) (rest : ℚ) : DGState :=
  ⟨[(blend, "blendColors"), (cond, "condition"), (md, "multiplyDivide"),
    (dist, "distanceBetween"), (loc_e, "spaceLocator"),
    (loc_s, "spaceLocator")],
   [((blend, "color1R"), 1), ((cond, "colorIfFalseR"), 1),
    ((cond, "operation"), 2), ((cond, "secondTerm"), 1),
    ((md, "input2X"), rest), ((md, "operation"), 2)],
   [((mid_jnt, "scaleX"), (blend, "outputR")),
    ((start_jnt, "scaleX"), (blend, "outputR")),
    ((blend, "blender"), (ik_transform, "stretch")),
    ((blend, "color2R"), (cond, "outColorR")),
    ((cond, "colorIfTrueR"), (md, "outputX")),
    ((cond, "firstTerm"), (md, "outputX")),
    ((md, "input1X"), (dist, "distance")),
    ((dist, "inMatrix2"), (loc_e, "worldMatrix[0]")),
    ((dist, "inMatrix1"), (loc_s, "worldMatrix[0]"))]⟩

/-- External scene values for evaluating a stretch chain: the measured
distance on the `distanceBetween` node and the animated `stretch` attribute
on the IK transform. -/
def stretchExt (dist ik_transform : String) (d b : ℚ) : Plug → Option ℚ :=
  fun p =>
    if p = (dist, "distance") then some d
    else if p = (ik_transform, "stretch") then some b
    else none

/-- A concrete clean scene for exercising the stretch system: nothing
exists, no parents, no attributes, every measured segment has length 2. -/
def stretchWitnessEnv : StretchEnv :=
  ⟨fun _ => false, fun _ => [], fun _ _ => false, fun _ _ => 2, false⟩

/-! ## Helper lemmas -/

theorem sanitize_eq_map (name : List Char) :
    sanitize_node_name name = name.map sanitizeChar := by
  simp only [sanitize_node_name, unsafeChars, List.foldl_cons, List.foldl_nil,
    replaceChar, List.map_map]
  apply List.map_congr_left
  intro c _
  simp only [Function.comp_apply, sanitizeChar]
  by_cases h1 : c = '|' <;> by_cases h2 : c = ':' <;> by_cases h3 : c = ' ' <;>
    by_cases h4 : c = '-' <;> by_cases h5 : c = '.' <;> simp_all

theorem sanitizeChar_not_unsafe (c : Char) : sanitizeChar c ∉ unsafeChars := by
  simp only [sanitizeChar, unsafeChars]
  by_cases h1 : c = '.' <;> by_cases h2 : c = '-' <;> by_cases h3 : c = ' ' <;>
    by_cases h4 : c = ':' <;> by_cases h5 : c = '|' <;> simp_all

theorem sanitizeChar_idem (c : Char) : sanitizeChar (sanitizeChar c) = sanitizeChar c := by
  simp only [sanitizeChar]
  by_cases h1 : c = '.' <;> by_cases h2 : c = '-' <;> by_cases h3 : c = ' ' <;>
    by_cases h4 : c = ':' <;> by_cases h5 : c = '|' <;> simp_all

mutual

theorem walkJoint_eq (t : JTree) (chain : List String) :
    walkJoint t chain = chain ++ preorder t := by
  cases t with
  | node j cs =>
    rw [walkJoint, preorder, walkChildren_eq]
    simp

theorem walkChildren_eq (f : JForest) (chain : List String) :
    walkChildren f chain = chain ++ preorderForest f := by
  cases f with
  | nil => rw [walkChildren, preorderForest]; simp
  | cons c rest =>
    rw [walkChildren, preorderForest, walkChildren_eq, walkJoint_eq]
    simp

end

/-! ## Claims -/

/-- C8: for every string `s`, `_sanitize_node_name(s)` contains none of the
characters `|`, `:`, space, `-`, `.`, and `_sanitize_node_name` is
idempotent. -/
theorem C8_sanitize_safe_idempotent (s : String) :
    (∀ c ∈ (sanitizeStr s).data, c ∉ ['|', ':', ' ', '-', '.']) ∧
    sanitizeStr (sanitizeStr s) = sanitizeStr s := by
  constructor
  · intro c hc
    have hd : (sanitizeStr s).data = s.data.map sanitizeChar := by
      simp [sanitizeStr, sanitize_eq_map]
    rw [hd] at hc
    obtain ⟨a, -, rfl⟩ := List.mem_map.mp hc
    simpa [unsafeChars] using sanitizeChar_not_unsafe a
  · show String.mk _ = String.mk _
    simp only [sanitizeStr, sanitize_eq_map, List.map_map]
    congr 1
    exact List.map_congr_left fun a _ => sanitizeChar_idem a

/-- C4 counterexample: `_sanitize_node_name` computes its result from its
string input alone — two visibly different scenes give the same, fully
evaluated result — refuting the claim that no function in the repository
computes a result from its inputs alone. -/
theorem C4_counterexample :
    sanitizeInScene
      ⟨fun _ => false, fun _ => [], fun _ => [], fun _ _ => false,
        [], none, fun _ => []⟩ "L arm|Ctrl:0.1" = "L_arm_Ctrl_0_1" ∧
    sanitizeInScene
      ⟨fun _ => true, fun _ => ["grp"], fun _ => ["sn"], fun _ _ => true,
        ["w0"], some ["t"], fun _ => [("a", "b")]⟩ "L arm|Ctrl:0.1" =
      "L_arm_Ctrl_0_1" := by
  constructor <;> decide

/-- C4 (amended): the repository's substantive operations read the host
scene, but pure string logic does exist: `_sanitize_node_name`'s result is
independent of the scene and is determined by a character map over its
input. -/
theorem C4_amended_pure_logic_exists (scene1 scene2 : IKEnv) (name : String) :
    sanitizeInScene scene1 name = sanitizeInScene scene2 name ∧
    sanitizeInScene scene1 name = String.mk (name.data.map sanitizeChar) := by
  refine ⟨rfl, ?_⟩
  simp [sanitizeInScene, sanitizeStr, sanitize_eq_map]

/-- C7: in `attach_ctrls_to_curve`, for a joint chain of length `n ≥ 1` the
`idx`-th control is attached at curve parameter `(idx / (n - 1)) * spans`
(0 when `n = 1`); the parameters start at 0, end at `spans`, are
nondecreasing in the joint order and are evenly spaced. -/
theorem C7_ctrl_params (n : Nat) (spans : ℚ) (hn : 1 ≤ n) (hs : 0 ≤ spans) :
    (∀ (chain : List String) (idx : Nat), chain.length = n → idx < n →
      (attachParams chain spans)[idx]? = some (ctrlParam n idx spans)) ∧
    (∀ idx, n = 1 → ctrlParam n idx spans = 0) ∧
    (∀ idx, 2 ≤ n → ctrlParam n idx spans = (idx : ℚ) / ((n : ℚ) - 1) * spans) ∧
    ctrlParam n 0 spans = 0 ∧
    (2 ≤ n → ctrlParam n (n - 1) spans = spans) ∧
    (∀ i j, i ≤ j → ctrlParam n i spans ≤ ctrlParam n j spans) ∧
    (∀ i, 2 ≤ n → ctrlParam n (i + 1) spans - ctrlParam n i spans =
      spans / ((n : ℚ) - 1)) := by
  have hpos : 2 ≤ n → (0 : ℚ) < (n : ℚ) - 1 := by
    intro hm
    have : (2 : ℚ) ≤ (n : ℚ) := by exact_mod_cast hm
    linarith
  refine ⟨?_, ?_, ?_, ?_, ?_, ?_, ?_⟩
  · intro chain idx hlen hidx
    subst hlen
    simp [attachParams, List.getElem?_map, List.getElem?_range, hidx]
  · intro idx h1
    simp [ctrlParam, h1]
  · intro idx h2
    have hne : n ≠ 1 := by omega
    simp [ctrlParam, hne]
  · by_cases h1 : n = 1 <;> simp [ctrlParam, h1]
  · intro h2
    have hne : n ≠ 1 := by omega
    have h1n : 1 ≤ n := hn
    simp only [ctrlParam, hne, if_false]
    rw [Nat.cast_sub h1n]
    push_cast
    rw [div_self (ne_of_gt (hpos h2))]
    ring
  · intro i j hij
    by_cases h1 : n = 1
    · simp [ctrlParam, h1]
    · have h2 : 2 ≤ n := by omega
      simp only [ctrlParam, h1, if_false]
      have hc := hpos h2
      have hij' : (i : ℚ) ≤ (j : ℚ) := by exact_mod_cast hij
      exact mul_le_mul_of_nonneg_right
        ((div_le_div_iff_of_pos_right hc).mpr hij') hs
  · intro i h2
    have hne : n ≠ 1 := by omega
    have hc : ((n : ℚ) - 1) ≠ 0 := ne_of_gt (hpos h2)
    simp only [ctrlParam, hne, if_false]
    push_cast
    field_simp
    ring

/-- C7 witness. -/
theorem C7_ctrl_params_witness :
    (1 : ℕ) ≤ 4 ∧ (0 : ℚ) ≤ 3 ∧ ctrlParam 4 3 3 = 3 :=
  ⟨by decide, by decide,
    (C7_ctrl_params 4 3 (by decide) (by decide)).2.2.2.2.1 (by decide)⟩

/-- C9: `get_joint_chain` returns the depth-first pre-order traversal of the
joint hierarchy (root first, children in `listRelatives` order), and the
empty list when the root does not exist or is not a joint. -/
theorem C9_get_joint_chain_preorder (ex : Bool) (nt : String) (t : JTree) :
    (ex = true ∧ nt = "joint" → get_joint_chain ex nt t = preorder t) ∧
    (∀ j f, get_joint_chain true "joint" (JTree.node j f) =
      j :: preorderForest f) ∧
    (¬(ex = true ∧ nt = "joint") → get_joint_chain ex nt t = []) := by
  refine ⟨?_, ?_, ?_⟩
  · rintro ⟨h1, h2⟩
    subst h1; subst h2
    rw [get_joint_chain, if_pos ⟨rfl, rfl⟩, walkJoint_eq]
    simp
  · intro j f
    rw [get_joint_chain, if_pos ⟨rfl, rfl⟩, walkJoint, walkChildren_eq]
    simp [preorder]
  · intro h
    exact if_neg h

/-- C9 witness. -/
theorem C9_witness :
    get_joint_chain true "joint"
      (JTree.node "root"
        (JForest.cons (JTree.node "a" JForest.nil)
          (JForest.cons (JTree.node "b" JForest.nil) JForest.nil))) =
      ["root", "a", "b"] ∧
    get_joint_chain false "joint" (JTree.node "root" JForest.nil) = [] := by
  have h1 := C9_get_joint_chain_preorder true "joint"
    (JTree.node "root"
      (JForest.cons (JTree.node "a" JForest.nil)
        (JForest.cons (JTree.node "b" JForest.nil) JForest.nil)))
  have h2 := C9_get_joint_chain_preorder false "joint"
    (JTree.node "root" JForest.nil)
  refine ⟨?_, h2.2.2 (by simp)⟩
  rw [h1.1 ⟨rfl, rfl⟩]
  rfl

/-- C10 (code bug): every call of `changeCurveColor` ends by evaluating the
bare, undefined name `changeObjColor` (line 26), so after the branch the
claim describes (range message only, or the per-shape `setAttr` calls) the
function raises `NameError` instead of returning normally. -/
theorem C10_changeCurveColor_name_error :
    changeCurveColor 50 [] (fun _ => []) colorToCurveGlobals =
      ⟨[], ["Value outside range, please enter value 0-31"],
        some "NameError: name changeObjColor is not defined"⟩ ∧
    changeCurveColor 10 ["ctrl1", "noShapeObj"]
        (fun obj => if obj = "ctrl1" then ["ctrl1Shape"] else [])
        colorToCurveGlobals =
      ⟨[Effect.setAttr ("ctrl1Shape", "overrideEnabled") 1,
        Effect.setAttr ("ctrl1Shape", "overrideColor") 10], [],
        some "NameError: name changeObjColor is not defined"⟩ := by
  constructor <;> decide

/-- C3 counterexample: on an empty selection `matchTransforms` reports by
raising (`cmds.error`), not by a warning-and-return, and
`renameLeftJoints` raises an unreported `IndexError`; both refute the claim
that every tool warns or prints and returns without raising. -/
theorem C3_counterexample :
    matchTransforms [] = ⟨[], [], some "Please select two objects"⟩ ∧
    renameLeftJoints [] =
      ⟨[], [], some "IndexError: list index out of range"⟩ := by
  constructor <;> decide

/-- C3 (amended): for the cited operations, a missing or insufficient
selection is reported — by a warning, a printed message, or a raised
error — and no scene-modifying effect is performed. -/
theorem C3_amended_insufficient_selection (sel : List String) (mo : Bool)
    (conFails : String → Bool) (h : sel.length < 2) :
    ((matchTransforms sel).effects = [] ∧ (matchTransforms sel).raised ≠ none) ∧
    ((createParentConstraintTool sel mo conFails).effects = [] ∧
      (createParentConstraintTool sel mo conFails).messages =
        ["Select parent first, then one or more children."] ∧
      (createParentConstraintTool sel mo conFails).raised = none) ∧
    ((kfAT_Obj sel).effects = [] ∧
      (kfAT_Obj sel).messages =
        ["\n\nFAIL: Please select at least 2 Objects\n\n"] ∧
      (kfAT_Obj sel).raised = none) ∧
    get_parent_and_children sel =
      ((none, []), ["Select parent first, then one or more children."]) := by
  have h2 : sel.length ≠ 2 := by omega
  have h1 : ¬sel.length > 1 := by omega
  have hg : get_parent_and_children sel =
      ((none, []), ["Select parent first, then one or more children."]) := by
    simp [get_parent_and_children, h]
  refine ⟨?_, ?_, ?_, hg⟩
  · simp [matchTransforms, h2]
  · simp [createParentConstraintTool, hg]
  · simp [kfAT_Obj, h1]

/-- C3 witness. -/
theorem C3_amended_witness :
    (matchTransforms ["obj"]).raised ≠ none ∧ (kfAT_Obj ["obj"]).effects = [] := by
  have h := C3_amended_insufficient_selection ["obj"] true (fun _ => false)
    (by decide)
  exact ⟨h.1.2, h.2.2.1.1⟩

/-- C5: `addIKFollowSystem` raises exactly when one of its four controls does
not exist or the IK control has no parent, and `create_from_selection`
raises exactly when fewer than 4 objects are selected; otherwise both
proceed without raising. -/
theorem C5_validation_iff (env : IKEnv) (fail : ConnFail)
    (ik_ctrl cog_ctrl trans_ctrl world_ctrl : String)
    (senv : StretchEnv) (sel : List String) (name : Option String) :
    (raisesError
        (addIKFollowSystem env fail ik_ctrl cog_ctrl trans_ctrl world_ctrl) =
          true ↔
      (∃ obj ∈ [ik_ctrl, cog_ctrl, trans_ctrl, world_ctrl],
        env.objExists obj = false) ∨
      env.listRelativesParent ik_ctrl = []) ∧
    (raisesError (create_from_selection senv sel name) = true ↔
      sel.length < 4) := by
  constructor
  · unfold addIKFollowSystem
    cases hfind : [ik_ctrl, cog_ctrl, trans_ctrl, world_ctrl].find?
        (fun obj => !env.objExists obj) with
    | some o =>
      have hmem := List.mem_of_find?_eq_some hfind
      have hprop := List.find?_some hfind
      simp only [Bool.not_eq_eq_eq_not, Bool.not_true] at hprop
      exact iff_of_true rfl (Or.inl ⟨o, hmem, hprop⟩)
    | none =>
      have hall : ∀ obj ∈ [ik_ctrl, cog_ctrl, trans_ctrl, world_ctrl],
          env.objExists obj = true := by
        intro x hx
        have := List.find?_eq_none.mp hfind x hx
        simpa using this
      cases hp : env.listRelativesParent ik_ctrl with
      | nil =>
        exact iff_of_true rfl (Or.inr rfl)
      | cons g rest =>
        constructor
        · intro hfalse
          simp [raisesError] at hfalse
        · rintro (⟨o, hmem, hne⟩ | hnil)
          · rw [hall o hmem] at hne
            exact absurd hne (by simp)
          · exact absurd hnil (by simp)
  · by_cases h4 : sel.length < 4 <;>
      simp [create_from_selection, raisesError, h4]

/-- C6: once the existence and grouping checks pass, `addIKFollowSystem`
runs to completion for every pattern of failures of its `try`-wrapped
optional connections, and the last thing it does is print
`Follow system added to <ik_ctrl>`. -/
theorem C6_swallowed_failures_still_complete (env : IKEnv) (fail : ConnFail)
    (ik_ctrl cog_ctrl trans_ctrl world_ctrl : String)
    (hex : ∀ obj ∈ [ik_ctrl, cog_ctrl, trans_ctrl, world_ctrl],
      env.objExists obj = true)
    (hgrp : env.listRelativesParent ik_ctrl ≠ []) :
    ∃ effects,
      addIKFollowSystem env fail ik_ctrl cog_ctrl trans_ctrl world_ctrl =
        .ok effects ∧
      effects.getLast? =
        some (Effect.printMsg ("Follow system added to " ++ ik_ctrl)) := by
  have hfind : [ik_ctrl, cog_ctrl, trans_ctrl, world_ctrl].find?
      (fun obj => !env.objExists obj) = none := by
    rw [List.find?_eq_none]
    intro x hx
    simp [hex x hx]
  unfold addIKFollowSystem
  rw [hfind]
  cases hp : env.listRelativesParent ik_ctrl with
  | nil => exact absurd hp hgrp
  | cons g rest =>
    exact ⟨_, rfl, List.getLast?_concat _⟩

/-- C6 witness: a scene passing the checks, with every optional connection
failing. -/
theorem C6_swallowed_failures_witness :
    ∃ effects,
      addIKFollowSystem
        ⟨fun _ => true, fun _ => ["Grp"], fun o => [o], fun _ _ => false,
          ["w0"], some ["COG"], fun _ => []⟩
        ⟨fun _ => true, fun _ => true, fun _ => true, fun _ _ => true,
          fun _ => true, fun _ => true⟩
        "IK_Ctrl" "COG" "Trans" "World" = .ok effects ∧
      effects.getLast? =
        some (Effect.printMsg ("Follow system added to " ++ "IK_Ctrl")) :=
  C6_swallowed_failures_still_complete _ _ _ _ _ _ (by decide) (by decide)

theorem followChainState_nodeTypes (ik cond mdl pcon w : String) (e : ℚ) :
    (followChainState ik cond mdl pcon w e).nodeTypes =
      [(mdl, "multDoubleLinear"), (cond, "condition")] := rfl

theorem followChainState_setVals (ik cond mdl pcon w : String) (e : ℚ) :
    (followChainState ik cond mdl pcon w e).setVals =
      [((mdl, "input2"), 1), ((cond, "colorIfFalseR"), 0),
       ((cond, "colorIfTrueR"), 1), ((cond, "secondTerm"), e),
       ((cond, "operation"), 0)] := rfl

theorem followChainState_conns (ik cond mdl pcon w : String) (e : ℚ) :
    (followChainState ik cond mdl pcon w e).conns =
      [((pcon, w), (mdl, "output")), ((mdl, "input1"), (cond, "outColorR")),
       ((cond, "firstTerm"), (ik, "FollowTarget"))] := rfl

theorem followExt_self (ik : String) (v : ℚ) :
    followExt ik v (ik, "FollowTarget") = some v := by
  simp [followExt]

theorem followChainEval (ik cond mdl pcon w : String) (e v : ℚ)
    (hq1 : ((mdl, "input1") : Plug) ≠ (pcon, w))
    (hq2 : ((mdl, "input2") : Plug) ≠ (pcon, w))
    (hq3 : ((cond, "operation") : Plug) ≠ (pcon, w))
    (hq4 : ((cond, "firstTerm") : Plug) ≠ (pcon, w))
    (hq5 : ((cond, "secondTerm") : Plug) ≠ (pcon, w))
    (hq6 : ((cond, "colorIfTrueR") : Plug) ≠ (pcon, w))
    (hq7 : ((cond, "colorIfFalseR") : Plug) ≠ (pcon, w))
    (hq8 : ((ik, "FollowTarget") : Plug) ≠ (pcon, w))
    (hcm : cond ≠ mdl) (hik1 : ik ≠ mdl) (hik2 : ik ≠ cond) :
    plugValue (followChainState ik cond mdl pcon w e) (followExt ik v) 8
      (pcon, w) = some (if v = e then 1 else 0) := by
  have hPV2 : plugValue (followChainState ik cond mdl pcon w e)
      (followExt ik v) 2 (ik, "FollowTarget") = some v := by
    simp only [plugValue, followChainState_conns, followChainState_setVals,
      followExt_self, assocFind, hq8,
      Prod.mk.injEq, String.reduceEq, and_false, false_and, and_true, true_and,
      if_false, if_true, reduceIte, hik1, hik2]
  have hSrc3 : srcValue (followChainState ik cond mdl pcon w e)
      (followExt ik v) 3 (ik, "FollowTarget") = some v := by
    simp only [srcValue, followChainState_nodeTypes, assocFind, hik1, hik2,
      Prod.mk.injEq, String.reduceEq, and_false, false_and, and_true, true_and,
      if_false, if_true, reduceIte]
    exact hPV2
  have hPV4op : plugValue (followChainState ik cond mdl pcon w e)
      (followExt ik v) 4 (cond, "operation") = some 0 := by
    simp only [plugValue, followChainState_conns, followChainState_setVals,
      assocFind, hq3,
      Prod.mk.injEq, String.reduceEq, and_false, false_and, and_true, true_and,
      if_false, if_true, reduceIte]
  have hPV4st : plugValue (followChainState ik cond mdl pcon w e)
      (followExt ik v) 4 (cond, "secondTerm") = some e := by
    simp only [plugValue, followChainState_conns, followChainState_setVals,
      assocFind, hq5,
      Prod.mk.injEq, String.reduceEq, and_false, false_and, and_true, true_and,
      if_false, if_true, reduceIte]
  have hPV4ct : plugValue (followChainState ik cond mdl pcon w e)
      (followExt ik v) 4 (cond, "colorIfTrueR") = some 1 := by
    simp only [plugValue, followChainState_conns, followChainState_setVals,
      assocFind, hq6,
      Prod.mk.injEq, String.reduceEq, and_false, false_and, and_true, true_and,
      if_false, if_true, reduceIte]
  have hPV4cf : plugValue (followChainState ik cond mdl pcon w e)
      (followExt ik v) 4 (cond, "colorIfFalseR") = some 0 := by
    simp only [plugValue, followChainState_conns, followChainState_setVals,
      assocFind, hq7,
      Prod.mk.injEq, String.reduceEq, and_false, false_and, and_true, true_and,
      if_false, if_true, reduceIte]
  have hPV4ft : plugValue (followChainState ik cond mdl pcon w e)
      (followExt ik v) 4 (cond, "firstTerm") = some v := by
    simp only [plugValue, followChainState_conns, followChainState_setVals,
      assocFind, hq4,
      Prod.mk.injEq, String.reduceEq, and_false, false_and, and_true, true_and,
      if_false, if_true, reduceIte]
    exact hSrc3
  have hSrc5 : srcValue (followChainState ik cond mdl pcon w e)
      (followExt ik v) 5 (cond, "outColorR") =
      some (conditionOutColorR 0 v e 1 0) := by
    simp only [srcValue, followChainState_nodeTypes, assocFind, hcm,
      Prod.mk.injEq, String.reduceEq, and_false, false_and, and_true, true_and,
      if_false, if_true, reduceIte]
    rw [hPV4op, hPV4st, hPV4ct, hPV4cf, hPV4ft]
    rfl
  have hPV6i1 : plugValue (followChainState ik cond mdl pcon w e)
      (followExt ik v) 6 (mdl, "input1") =
      some (conditionOutColorR 0 v e 1 0) := by
    simp only [plugValue, followChainState_conns, followChainState_setVals,
      assocFind, hq1,
      Prod.mk.injEq, String.reduceEq, and_false, false_and, and_true, true_and,
      if_false, if_true, reduceIte]
    exact hSrc5
  have hPV6i2 : plugValue (followChainState ik cond mdl pcon w e)
      (followExt ik v) 6 (mdl, "input2") = some 1 := by
    simp only [plugValue, followChainState_conns, followChainState_setVals,
      assocFind, hq2,
      Prod.mk.injEq, String.reduceEq, and_false, false_and, and_true, true_and,
      if_false, if_true, reduceIte]
  have hSrc7 : srcValue (followChainState ik cond mdl pcon w e)
      (followExt ik v) 7 (mdl, "output") =
      some (multDoubleLinearOutput (conditionOutColorR 0 v e 1 0) 1) := by
    simp only [srcValue, followChainState_nodeTypes, assocFind,
      Prod.mk.injEq, String.reduceEq, and_false, false_and, and_true, true_and,
      if_false, if_true, reduceIte]
    rw [hPV6i1, hPV6i2]
    rfl
  have hTop : plugValue (followChainState ik cond mdl pcon w e)
      (followExt ik v) 8 (pcon, w) =
      srcValue (followChainState ik cond mdl pcon w e)
        (followExt ik v) 7 (mdl, "output") := by
    simp only [plugValue, followChainState_conns, assocFind,
      Prod.mk.injEq, String.reduceEq, and_false, false_and, and_true, true_and,
      if_false, if_true, reduceIte]
  rw [hTop, hSrc7]
  have hcv : conditionOutColorR 0 v e 1 0 = if v = e then 1 else 0 := by
    simp [conditionOutColorR]
  rw [multDoubleLinearOutput, hcv, mul_one]

theorem foldl_disconnects (srcs : List Plug) (dst : Plug) (st : DGState)
    (h : ∀ p ∈ st.conns, p.1 ≠ dst) :
    List.foldl applyEffect st
      (srcs.flatMap (fun src => [Effect.disconnectAttr src dst])) = st := by
  induction srcs with
  | nil => rfl
  | cons s rest ih =>
    have hstep : applyEffect st (Effect.disconnectAttr s dst) = st := by
      simp only [applyEffect]
      have : st.conns.filter (fun p => !(p.1 = dst && p.2 = s)) = st.conns := by
        apply List.filter_eq_self.mpr
        intro p hp
        simp [h p hp]
      rw [this]
    simp only [List.flatMap_cons, List.singleton_append, List.foldl_cons, hstep]
    exact ih

theorem matchTargetEnum_cases (a b c d : String) :
    matchTargetEnum a b c d = none ∨ matchTargetEnum a b c d = some 1 ∨
    matchTargetEnum a b c d = some 2 ∨ matchTargetEnum a b c d = some 3 := by
  unfold matchTargetEnum
  repeat' split
  all_goals simp

theorem matchLabelEnum_cases (l : List Char) (b c d : String) :
    matchLabelEnum l b c d = none ∨ matchLabelEnum l b c d = some 1 ∨
    matchLabelEnum l b c d = some 2 ∨ matchLabelEnum l b c d = some 3 := by
  unfold matchLabelEnum
  repeat' split
  all_goals simp

theorem weightEnumVal_cases (env : IKEnv)
    (cog_ctrl trans_ctrl world_ctrl : String) (idx : Nat) (weight : String) :
    weightEnumVal env cog_ctrl trans_ctrl world_ctrl idx weight = none ∨
    weightEnumVal env cog_ctrl trans_ctrl world_ctrl idx weight = some 1 ∨
    weightEnumVal env cog_ctrl trans_ctrl world_ctrl idx weight = some 2 ∨
    weightEnumVal env cog_ctrl trans_ctrl world_ctrl idx weight = some 3 := by
  unfold weightEnumVal
  dsimp only
  repeat' split
  all_goals first
    | exact matchTargetEnum_cases _ _ _ _
    | exact matchLabelEnum_cases _ _ _ _

theorem weightEnumVal_mem (env : IKEnv) (cog_ctrl trans_ctrl world_ctrl : String)
    (idx : Nat) (weight : String) (e : ℚ)
    (h : weightEnumVal env cog_ctrl trans_ctrl world_ctrl idx weight = some e) :
    e = 1 ∨ e = 2 ∨ e = 3 := by
  rcases weightEnumVal_cases env cog_ctrl trans_ctrl world_ctrl idx weight with
    hc | hc | hc | hc <;> rw [h] at hc <;> simp_all

theorem processWeight_noFail_state (env : IKEnv)
    (ik_ctrl pcon cog_ctrl trans_ctrl world_ctrl : String) (idx : Nat)
    (weight : String) (e : ℚ)
    (hmatch : weightEnumVal env cog_ctrl trans_ctrl world_ctrl idx weight =
      some e)
    (h1 : ((followMdlName ik_ctrl weight, "input1") : Plug) ≠ (pcon, weight))
    (h2 : ((followCondName ik_ctrl weight, "firstTerm") : Plug) ≠
      (pcon, weight)) :
    buildState (processWeight env noFail ik_ctrl pcon cog_ctrl trans_ctrl
        world_ctrl idx weight) =
      followChainState ik_ctrl (followCondName ik_ctrl weight)
        (followMdlName ik_ctrl weight) pcon weight e := by
  unfold processWeight
  rw [hmatch]
  simp only [noFail, Bool.false_eq_true, if_false]
  unfold buildState
  simp only [List.foldl_append, List.foldl_cons, List.foldl_nil, applyEffect]
  rw [foldl_disconnects]
  · rfl
  · intro p hp
    simp only [List.mem_cons, List.not_mem_nil, or_false] at hp
    rcases hp with rfl | rfl
    · exact h1
    · exact h2

theorem flatMap_singleton_map {α β : Type} (l : List α) (f : α → β) :
    (l.flatMap fun a => [f a]) = l.map f := by
  induction l with
  | nil => rfl
  | cons a rest ih => simp only [List.flatMap_cons, List.singleton_append,
      List.map_cons, ih]

/-- C1: for every constraint weight that `addIKFollowSystem` matches to one
of the three follow targets (COG = 1, Transform = 2, World = 3), the weight
loop builds the explicit chain condition → multDoubleLinear → constraint
weight: the condition compares `ik_ctrl.FollowTarget` for equality
(operation 0) with the matched target's enum value, outputs 1 when equal
and 0 otherwise, and the multiplier's second input is 1; evaluating the
resulting graph, the weight is 1 exactly when `FollowTarget` selects that
target and 0 otherwise.  The freshness hypotheses say the generated plug
and node names do not collide. -/
theorem C1_follow_weight_chain (env : IKEnv)
    (ik_ctrl cog_ctrl trans_ctrl world_ctrl pcon : String) (idx : Nat)
    (weight : String) (e v : ℚ)
    (hmatch : weightEnumVal env cog_ctrl trans_ctrl world_ctrl idx weight =
      some e)
    (hplugs : ([(pcon, weight),
      (followMdlName ik_ctrl weight, "input1"),
      (followMdlName ik_ctrl weight, "input2"),
      (followCondName ik_ctrl weight, "operation"),
      (followCondName ik_ctrl weight, "firstTerm"),
      (followCondName ik_ctrl weight, "secondTerm"),
      (followCondName ik_ctrl weight, "colorIfTrueR"),
      (followCondName ik_ctrl weight, "colorIfFalseR"),
      (ik_ctrl, "FollowTarget")] : List Plug).Nodup)
    (hnodes : ([ik_ctrl, followCondName ik_ctrl weight,
      followMdlName ik_ctrl weight] : List String).Nodup) :
    (e = 1 ∨ e = 2 ∨ e = 3) ∧
    processWeight env noFail ik_ctrl pcon cog_ctrl trans_ctrl world_ctrl idx
        weight =
      [Effect.createNode "condition" (followCondName ik_ctrl weight),
       Effect.setAttr (followCondName ik_ctrl weight, "operation") 0,
       Effect.setAttr (followCondName ik_ctrl weight, "secondTerm") e,
       Effect.setAttr (followCondName ik_ctrl weight, "colorIfTrueR") 1,
       Effect.setAttr (followCondName ik_ctrl weight, "colorIfFalseR") 0,
       Effect.connectAttr (ik_ctrl, "FollowTarget")
         (followCondName ik_ctrl weight, "firstTerm"),
       Effect.createNode "multDoubleLinear" (followMdlName ik_ctrl weight),
       Effect.setAttr (followMdlName ik_ctrl weight, "input2") 1,
       Effect.connectAttr (followCondName ik_ctrl weight, "outColorR")
         (followMdlName ik_ctrl weight, "input1")]
      ++ (env.listConnections (pcon, weight)).map
          (fun src => Effect.disconnectAttr src (pcon, weight))
      ++ [Effect.connectAttr (followMdlName ik_ctrl weight, "output")
          (pcon, weight)] ∧
    plugValue
      (buildState (processWeight env noFail ik_ctrl pcon cog_ctrl trans_ctrl
        world_ctrl idx weight))
      (followExt ik_ctrl v) 8 (pcon, weight) =
      some (if v = e then 1 else 0) := by
  simp only [List.nodup_cons, List.mem_cons, List.not_mem_nil, or_false,
    not_or, List.nodup_nil, and_true, List.mem_singleton] at hplugs hnodes
  obtain ⟨⟨hq1, hq2, hq3, hq4, hq5, hq6, hq7, hq8⟩, -⟩ := hplugs
  obtain ⟨⟨hik2, hik1⟩, hcm, -⟩ := hnodes
  refine ⟨weightEnumVal_mem env _ _ _ _ _ _ hmatch, ?_, ?_⟩
  · unfold processWeight
    rw [hmatch]
    simp only [noFail, Bool.false_eq_true, if_false, flatMap_singleton_map,
      List.append_assoc, List.cons_append, List.nil_append,
      List.singleton_append]
  · rw [processWeight_noFail_state env ik_ctrl pcon cog_ctrl trans_ctrl
      world_ctrl idx weight e hmatch (Ne.symm hq1) (Ne.symm hq4)]
    exact followChainEval ik_ctrl (followCondName ik_ctrl weight)
      (followMdlName ik_ctrl weight) pcon weight e v
      (Ne.symm hq1) (Ne.symm hq2) (Ne.symm hq3) (Ne.symm hq4) (Ne.symm hq5)
      (Ne.symm hq6) (Ne.symm hq7) (Ne.symm hq8) hcm hik1 hik2

/-- C1 witness: a COG-matched weight in a concrete scene, evaluated with
`FollowTarget = 3` (World), gives weight 0. -/
theorem C1_follow_weight_chain_witness :
    plugValue
      (buildState (processWeight
        ⟨fun _ => true, fun _ => ["Grp"], fun o => [o], fun _ _ => false,
          ["COG_CtrlW0"], some ["COG_Ctrl"], fun _ => []⟩
        noFail "IK" "IK_Follow_PCon" "COG_Ctrl" "Trans_Ctrl" "World_Grp" 0
        "COG_CtrlW0"))
      (followExt "IK" 3) 8 ("IK_Follow_PCon", "COG_CtrlW0") =
      some (if (3 : ℚ) = 1 then 1 else 0) :=
  (C1_follow_weight_chain _ "IK" "COG_Ctrl" "Trans_Ctrl" "World_Grp"
    "IK_Follow_PCon" 0 "COG_CtrlW0" 1 3 (by decide) (by decide)
    (by decide)).2.2

theorem stretchChainState_nodeTypes (s m ikt loc_s loc_e dist md cond
    blend : String) (rest : ℚ) :
    (stretchChainState s m ikt loc_s loc_e dist md cond blend rest).nodeTypes =
      [(blend, "blendColors"), (cond, "condition"), (md, "multiplyDivide"),
       (dist, "distanceBetween"), (loc_e, "spaceLocator"),
       (loc_s, "spaceLocator")] := rfl

theorem stretchChainState_setVals (s m ikt loc_s loc_e dist md cond
    blend : String) (rest : ℚ) :
    (stretchChainState s m ikt loc_s loc_e dist md cond blend rest).setVals =
      [((blend, "color1R"), 1), ((cond, "colorIfFalseR"), 1),
       ((cond, "operation"), 2), ((cond, "secondTerm"), 1),
       ((md, "input2X"), rest), ((md, "operation"), 2)] := rfl

theorem stretchChainState_conns (s m ikt loc_s loc_e dist md cond
    blend : String) (rest : ℚ) :
    (stretchChainState s m ikt loc_s loc_e dist md cond blend rest).conns =
      [((m, "scaleX"), (blend, "outputR")),
       ((s, "scaleX"), (blend, "outputR")),
       ((blend, "blender"), (ikt, "stretch")),
       ((blend, "color2R"), (cond, "outColorR")),
       ((cond, "colorIfTrueR"), (md, "outputX")),
       ((cond, "firstTerm"), (md, "outputX")),
       ((md, "input1X"), (dist, "distance")),
       ((dist, "inMatrix2"), (loc_e, "worldMatrix[0]")),
       ((dist, "inMatrix1"), (loc_s, "worldMatrix[0]"))] := rfl

theorem stretchExt_distance (dist ikt : String) (d b : ℚ) :
    stretchExt dist ikt d b (dist, "distance") = some d := by
  simp [stretchExt]

theorem stretchExt_stretch (dist ikt : String) (d b : ℚ) :
    stretchExt dist ikt d b (ikt, "stretch") = some b := by
  simp [stretchExt]

theorem stretchChainEval (s m ikt loc_s loc_e dist md cond blend : String)
    (rest d b : ℚ) (hsm : s ≠ m)
    (hcb : cond ≠ blend) (hmb : md ≠ blend) (hmc : md ≠ cond)
    (hdb : dist ≠ blend) (hdc : dist ≠ cond) (hdm : dist ≠ md)
    (hib : ikt ≠ blend) (hic : ikt ≠ cond) (him : ikt ≠ md)
    (hid : ikt ≠ dist) (hie : ikt ≠ loc_e) (his : ikt ≠ loc_s) :
    plugValue (stretchChainState s m ikt loc_s loc_e dist md cond blend rest)
        (stretchExt dist ikt d b) 12 (s, "scaleX") =
      some (blendColorsOutputR 1
        (conditionOutColorR 2 (multiplyDivideOutputX 2 d rest) 1
          (multiplyDivideOutputX 2 d rest) 1) b) ∧
    plugValue (stretchChainState s m ikt loc_s loc_e dist md cond blend rest)
        (stretchExt dist ikt d b) 12 (m, "scaleX") =
      some (blendColorsOutputR 1
        (conditionOutColorR 2 (multiplyDivideOutputX 2 d rest) 1
          (multiplyDivideOutputX 2 d rest) 1) b) := by
  have hD4 : plugValue
      (stretchChainState s m ikt loc_s loc_e dist md cond blend rest)
      (stretchExt dist ikt d b) 4 (dist, "distance") = some d := by
    simp only [plugValue, stretchChainState_conns, stretchChainState_setVals,
      stretchExt_distance, assocFind,
      Prod.mk.injEq, String.reduceEq, and_false, false_and, and_true, true_and,
      if_false, if_true, reduceIte]
  have hSrcD5 : srcValue
      (stretchChainState s m ikt loc_s loc_e dist md cond blend rest)
      (stretchExt dist ikt d b) 5 (dist, "distance") = some d := by
    simp only [srcValue, stretchChainState_nodeTypes, assocFind,
      hdb, hdc, hdm,
      Prod.mk.injEq, String.reduceEq, and_false, false_and, and_true, true_and,
      if_false, if_true, reduceIte]
    exact hD4
  have hMdOp6 : plugValue
      (stretchChainState s m ikt loc_s loc_e dist md cond blend rest)
      (stretchExt dist ikt d b) 6 (md, "operation") = some 2 := by
    simp only [plugValue, stretchChainState_conns, stretchChainState_setVals,
      assocFind, hmc,
      Prod.mk.injEq, String.reduceEq, and_false, false_and, and_true, true_and,
      if_false, if_true, reduceIte]
  have hMdI16 : plugValue
      (stretchChainState s m ikt loc_s loc_e dist md cond blend rest)
      (stretchExt dist ikt d b) 6 (md, "input1X") = some d := by
    simp only [plugValue, stretchChainState_conns, assocFind,
      Prod.mk.injEq, String.reduceEq, and_false, false_and, and_true, true_and,
      if_false, if_true, reduceIte]
    exact hSrcD5
  have hMdI26 : plugValue
      (stretchChainState s m ikt loc_s loc_e dist md cond blend rest)
      (stretchExt dist ikt d b) 6 (md, "input2X") = some rest := by
    simp only [plugValue, stretchChainState_conns, stretchChainState_setVals,
      assocFind,
      Prod.mk.injEq, String.reduceEq, and_false, false_and, and_true, true_and,
      if_false, if_true, reduceIte]
  have hSrcMd7 : srcValue
      (stretchChainState s m ikt loc_s loc_e dist md cond blend rest)
      (stretchExt dist ikt d b) 7 (md, "outputX") =
      some (multiplyDivideOutputX 2 d rest) := by
    simp only [srcValue, stretchChainState_nodeTypes, assocFind, hmb, hmc,
      Prod.mk.injEq, String.reduceEq, and_false, false_and, and_true, true_and,
      if_false, if_true, reduceIte]
    rw [hMdOp6, hMdI16, hMdI26]
    rfl
  have hCOp8 : plugValue
      (stretchChainState s m ikt loc_s loc_e dist md cond blend rest)
      (stretchExt dist ikt d b) 8 (cond, "operation") = some 2 := by
    simp only [plugValue, stretchChainState_conns, stretchChainState_setVals,
      assocFind,
      Prod.mk.injEq, String.reduceEq, and_false, false_and, and_true, true_and,
      if_false, if_true, reduceIte]
  have hCSt8 : plugValue
      (stretchChainState s m ikt loc_s loc_e dist md cond blend rest)
      (stretchExt dist ikt d b) 8 (cond, "secondTerm") = some 1 := by
    simp only [plugValue, stretchChainState_conns, stretchChainState_setVals,
      assocFind,
      Prod.mk.injEq, String.reduceEq, and_false, false_and, and_true, true_and,
      if_false, if_true, reduceIte]
  have hCCf8 : plugValue
      (stretchChainState s m ikt loc_s loc_e dist md cond blend rest)
      (stretchExt dist ikt d b) 8 (cond, "colorIfFalseR") = some 1 := by
    simp only [plugValue, stretchChainState_conns, stretchChainState_setVals,
      assocFind,
      Prod.mk.injEq, String.reduceEq, and_false, false_and, and_true, true_and,
      if_false, if_true, reduceIte]
  have hCFt8 : plugValue
      (stretchChainState s m ikt loc_s loc_e dist md cond blend rest)
      (stretchExt dist ikt d b) 8 (cond, "firstTerm") =
      some (multiplyDivideOutputX 2 d rest) := by
    simp only [plugValue, stretchChainState_conns, assocFind,
      Prod.mk.injEq, String.reduceEq, and_false, false_and, and_true, true_and,
      if_false, if_true, reduceIte]
    exact hSrcMd7
  have hCCt8 : plugValue
      (stretchChainState s m ikt loc_s loc_e dist md cond blend rest)
      (stretchExt dist ikt d b) 8 (cond, "colorIfTrueR") =
      some (multiplyDivideOutputX 2 d rest) := by
    simp only [plugValue, stretchChainState_conns, assocFind,
      Prod.mk.injEq, String.reduceEq, and_false, false_and, and_true, true_and,
      if_false, if_true, reduceIte]
    exact hSrcMd7
  have hSrcC9 : srcValue
      (stretchChainState s m ikt loc_s loc_e dist md cond blend rest)
      (stretchExt dist ikt d b) 9 (cond, "outColorR") =
      some (conditionOutColorR 2 (multiplyDivideOutputX 2 d rest) 1
        (multiplyDivideOutputX 2 d rest) 1) := by
    simp only [srcValue, stretchChainState_nodeTypes, assocFind, hcb,
      Prod.mk.injEq, String.reduceEq, and_false, false_and, and_true, true_and,
      if_false, if_true, reduceIte]
    rw [hCOp8, hCFt8, hCSt8, hCCt8, hCCf8]
    rfl
  have hIktP8 : plugValue
      (stretchChainState s m ikt loc_s loc_e dist md cond blend rest)
      (stretchExt dist ikt d b) 8 (ikt, "stretch") = some b := by
    simp only [plugValue, stretchChainState_conns, stretchChainState_setVals,
      stretchExt_stretch, assocFind,
      Prod.mk.injEq, String.reduceEq, and_false, false_and, and_true, true_and,
      if_false, if_true, reduceIte]
  have hIktS9 : srcValue
      (stretchChainState s m ikt loc_s loc_e dist md cond blend rest)
      (stretchExt dist ikt d b) 9 (ikt, "stretch") = some b := by
    simp only [srcValue, stretchChainState_nodeTypes, assocFind,
      hib, hic, him, hid, hie, his,
      Prod.mk.injEq, String.reduceEq, and_false, false_and, and_true, true_and,
      if_false, if_true, reduceIte]
    exact hIktP8
  have hB110 : plugValue
      (stretchChainState s m ikt loc_s loc_e dist md cond blend rest)
      (stretchExt dist ikt d b) 10 (blend, "color1R") = some 1 := by
    simp only [plugValue, stretchChainState_conns, stretchChainState_setVals,
      assocFind,
      Prod.mk.injEq, String.reduceEq, and_false, false_and, and_true, true_and,
      if_false, if_true, reduceIte]
  have hB210 : plugValue
      (stretchChainState s m ikt loc_s loc_e dist md cond blend rest)
      (stretchExt dist ikt d b) 10 (blend, "color2R") =
      some (conditionOutColorR 2 (multiplyDivideOutputX 2 d rest) 1
        (multiplyDivideOutputX 2 d rest) 1) := by
    simp only [plugValue, stretchChainState_conns, assocFind,
      Prod.mk.injEq, String.reduceEq, and_false, false_and, and_true, true_and,
      if_false, if_true, reduceIte]
    exact hSrcC9
  have hBb10 : plugValue
      (stretchChainState s m ikt loc_s loc_e dist md cond blend rest)
      (stretchExt dist ikt d b) 10 (blend, "blender") = some b := by
    simp only [plugValue, stretchChainState_conns, assocFind,
      Prod.mk.injEq, String.reduceEq, and_false, false_and, and_true, true_and,
      if_false, if_true, reduceIte]
    exact hIktS9
  have hSrcB11 : srcValue
      (stretchChainState s m ikt loc_s loc_e dist md cond blend rest)
      (stretchExt dist ikt d b) 11 (blend, "outputR") =
      some (blendColorsOutputR 1
        (conditionOutColorR 2 (multiplyDivideOutputX 2 d rest) 1
          (multiplyDivideOutputX 2 d rest) 1) b) := by
    simp only [srcValue, stretchChainState_nodeTypes, assocFind,
      Prod.mk.injEq, String.reduceEq, and_false, false_and, and_true, true_and,
      if_false, if_true, reduceIte]
    rw [hB110, hB210, hBb10]
    rfl
  constructor
  · have hTopS : plugValue
        (stretchChainState s m ikt loc_s loc_e dist md cond blend rest)
        (stretchExt dist ikt d b) 12 (s, "scaleX") =
        srcValue (stretchChainState s m ikt loc_s loc_e dist md cond blend
          rest) (stretchExt dist ikt d b) 11 (blend, "outputR") := by
      simp only [plugValue, stretchChainState_conns, assocFind, hsm,
        Prod.mk.injEq, String.reduceEq, and_false, false_and, and_true,
        true_and, if_false, if_true, reduceIte]
    rw [hTopS, hSrcB11]
  · have hTopM : plugValue
        (stretchChainState s m ikt loc_s loc_e dist md cond blend rest)
        (stretchExt dist ikt d b) 12 (m, "scaleX") =
        srcValue (stretchChainState s m ikt loc_s loc_e dist md cond blend
          rest) (stretchExt dist ikt d b) 11 (blend, "outputR") := by
      simp only [plugValue, stretchChainState_conns, assocFind,
        Prod.mk.injEq, String.reduceEq, and_false, false_and, and_true,
        true_and, if_false, if_true, reduceIte]
    rw [hTopM, hSrcB11]

theorem create_stretch_state (env : StretchEnv)
    (ik_handle start_jnt mid_jnt end_jnt : String) (name : Option String)
    (clamp_min : Bool)
    (hf1 : env.objExists (stretchLocStart (stretchBaseName start_jnt name)) =
      false)
    (hf2 : env.objExists (stretchLocEnd (stretchBaseName start_jnt name)) =
      false)
    (hf3 : env.objExists (stretchDistNode (stretchBaseName start_jnt name)) =
      false)
    (hf4 : env.objExists (stretchMdNode (stretchBaseName start_jnt name)) =
      false)
    (hf5 : env.objExists (stretchCondNode (stretchBaseName start_jnt name)) =
      false)
    (hf6 : env.objExists (stretchBlendNode (stretchBaseName start_jnt name)) =
      false) :
    buildState (create_stretch_ik_chain env ik_handle start_jnt mid_jnt
        end_jnt name clamp_min true) =
      stretchChainState start_jnt mid_jnt (stretchIkTransform env ik_handle)
        (stretchLocStart (stretchBaseName start_jnt name))
        (stretchLocEnd (stretchBaseName start_jnt name))
        (stretchDistNode (stretchBaseName start_jnt name))
        (stretchMdNode (stretchBaseName start_jnt name))
        (stretchCondNode (stretchBaseName start_jnt name))
        (stretchBlendNode (stretchBaseName start_jnt name))
        (env.xformDist start_jnt mid_jnt + env.xformDist mid_jnt end_jnt) := by
  unfold create_stretch_ik_chain
  simp only [hf1, hf2, hf3, hf4, hf5, hf6, Bool.false_eq_true, if_false,
    if_true]
  cases hA : env.attrExists (stretchIkTransform env ik_handle) "stretch" <;>
    cases hM : env.metaFails <;>
    cases hA2 : env.attrExists start_jnt "stretchSystem" <;>
    · simp only [Bool.false_eq_true, if_false, if_true]
      simp only [buildState, List.foldl_append, List.foldl_cons,
        List.foldl_nil, applyEffect]
      rfl

/-- C2: on a clean scene, `create_stretch_ik_chain` builds exactly the
network the claim describes — a `distanceBetween` node fed by the two
locators' world matrices, a `multiplyDivide` node (operation 2 = divide)
dividing the measured distance by the rest length
`dist(start,mid) + dist(mid,end)`, a `condition` node (operation
2 = Greater, second term 1.0) passing the ratio when it exceeds 1 and 1.0
otherwise, and a `blendColors` node (`color1R = 1.0`, blender driven by the
IK transform's `stretch` attribute) whose `outputR` drives `scaleX` of both
the start and mid joints — and evaluating that graph gives both joints the
scale `blend(1, clamp(d / rest), stretch)`. -/
theorem C2_stretch_network (env : StretchEnv)
    (ik_handle start_jnt mid_jnt end_jnt : String) (name : Option String)
    (clamp_min : Bool) (d b : ℚ)
    (hf1 : env.objExists (stretchLocStart (stretchBaseName start_jnt name)) =
      false)
    (hf2 : env.objExists (stretchLocEnd (stretchBaseName start_jnt name)) =
      false)
    (hf3 : env.objExists (stretchDistNode (stretchBaseName start_jnt name)) =
      false)
    (hf4 : env.objExists (stretchMdNode (stretchBaseName start_jnt name)) =
      false)
    (hf5 : env.objExists (stretchCondNode (stretchBaseName start_jnt name)) =
      false)
    (hf6 : env.objExists (stretchBlendNode (stretchBaseName start_jnt name)) =
      false)
    (hattr : env.attrExists (stretchIkTransform env ik_handle) "stretch" =
      false)
    (hmeta : env.metaFails = false)
    (hattr2 : env.attrExists start_jnt "stretchSystem" = false)
    (hsm : start_jnt ≠ mid_jnt)
    (hnodes : ([stretchIkTransform env ik_handle,
      stretchLocStart (stretchBaseName start_jnt name),
      stretchLocEnd (stretchBaseName start_jnt name),
      stretchDistNode (stretchBaseName start_jnt name),
      stretchMdNode (stretchBaseName start_jnt name),
      stretchCondNode (stretchBaseName start_jnt name),
      stretchBlendNode (stretchBaseName start_jnt name)] :
        List String).Nodup) :
    create_stretch_ik_chain env ik_handle start_jnt mid_jnt end_jnt name
        clamp_min true =
      [Effect.createNode "spaceLocator"
        (stretchLocStart (stretchBaseName start_jnt name)),
       Effect.createNode "spaceLocator"
        (stretchLocEnd (stretchBaseName start_jnt name)),
       Effect.pointConstrain start_jnt
        (stretchLocStart (stretchBaseName start_jnt name)),
       Effect.pointConstrain end_jnt
        (stretchLocEnd (stretchBaseName start_jnt name)),
       Effect.createNode "distanceBetween"
        (stretchDistNode (stretchBaseName start_jnt name)),
       Effect.connectAttr
        (stretchLocStart (stretchBaseName start_jnt name), "worldMatrix[0]")
        (stretchDistNode (stretchBaseName start_jnt name), "inMatrix1"),
       Effect.connectAttr
        (stretchLocEnd (stretchBaseName start_jnt name), "worldMatrix[0]")
        (stretchDistNode (stretchBaseName start_jnt name), "inMatrix2"),
       Effect.createNode "multiplyDivide"
        (stretchMdNode (stretchBaseName start_jnt name)),
       Effect.setAttr
        (stretchMdNode (stretchBaseName start_jnt name), "operation") 2,
       Effect.connectAttr
        (stretchDistNode (stretchBaseName start_jnt name), "distance")
        (stretchMdNode (stretchBaseName start_jnt name), "input1X"),
       Effect.setAttr
        (stretchMdNode (stretchBaseName start_jnt name), "input2X")
        (env.xformDist start_jnt mid_jnt + env.xformDist mid_jnt end_jnt),
       Effect.createNode "condition"
        (stretchCondNode (stretchBaseName start_jnt name)),
       Effect.connectAttr
        (stretchMdNode (stretchBaseName start_jnt name), "outputX")
        (stretchCondNode (stretchBaseName start_jnt name), "firstTerm"),
       Effect.setAttr
        (stretchCondNode (stretchBaseName start_jnt name), "secondTerm") 1,
       Effect.setAttr
        (stretchCondNode (stretchBaseName start_jnt name), "operation") 2,
       Effect.connectAttr
        (stretchMdNode (stretchBaseName start_jnt name), "outputX")
        (stretchCondNode (stretchBaseName start_jnt name), "colorIfTrueR"),
       Effect.setAttr
        (stretchCondNode (stretchBaseName start_jnt name), "colorIfFalseR") 1,
       Effect.createNode "blendColors"
        (stretchBlendNode (stretchBaseName start_jnt name)),
       Effect.setAttr
        (stretchBlendNode (stretchBaseName start_jnt name), "color1R") 1,
       Effect.connectAttr
        (stretchCondNode (stretchBaseName start_jnt name), "outColorR")
        (stretchBlendNode (stretchBaseName start_jnt name), "color2R"),
       Effect.addAttr (stretchIkTransform env ik_handle) "stretch",
       Effect.setKeyable (stretchIkTransform env ik_handle, "stretch"),
       Effect.connectAttr (stretchIkTransform env ik_handle, "stretch")
        (stretchBlendNode (stretchBaseName start_jnt name), "blender"),
       Effect.connectAttr
        (stretchBlendNode (stretchBaseName start_jnt name), "outputR")
        (start_jnt, "scaleX"),
       Effect.connectAttr
        (stretchBlendNode (stretchBaseName start_jnt name), "outputR")
        (mid_jnt, "scaleX"),
       Effect.addAttr start_jnt "stretchSystem",
       Effect.setAttrStr (start_jnt, "stretchSystem")
        (stretchBaseName start_jnt name)] ∧
    plugValue
      (buildState (create_stretch_ik_chain env ik_handle start_jnt mid_jnt
        end_jnt name clamp_min true))
      (stretchExt (stretchDistNode (stretchBaseName start_jnt name))
        (stretchIkTransform env ik_handle) d b) 12 (start_jnt, "scaleX") =
      some (blendColorsOutputR 1
        (conditionOutColorR 2
          (multiplyDivideOutputX 2 d
            (env.xformDist start_jnt mid_jnt + env.xformDist mid_jnt end_jnt))
          1
          (multiplyDivideOutputX 2 d
            (env.xformDist start_jnt mid_jnt + env.xformDist mid_jnt end_jnt))
          1) b) ∧
    plugValue
      (buildState (create_stretch_ik_chain env ik_handle start_jnt mid_jnt
        end_jnt name clamp_min true))
      (stretchExt (stretchDistNode (stretchBaseName start_jnt name))
        (stretchIkTransform env ik_handle) d b) 12 (mid_jnt, "scaleX") =
      some (blendColorsOutputR 1
        (conditionOutColorR 2
          (multiplyDivideOutputX 2 d
            (env.xformDist start_jnt mid_jnt + env.xformDist mid_jnt end_jnt))
          1
          (multiplyDivideOutputX 2 d
            (env.xformDist start_jnt mid_jnt + env.xformDist mid_jnt end_jnt))
          1) b) ∧
    (∀ rest : ℚ, multiplyDivideOutputX 2 d rest = d / rest) ∧
    (∀ x : ℚ, conditionOutColorR 2 x 1 x 1 = if 1 < x then x else 1) := by
  simp only [List.nodup_cons, List.mem_cons, List.not_mem_nil, or_false,
    not_or, List.nodup_nil, and_true, List.mem_singleton] at hnodes
  obtain ⟨⟨hi1, hi2, hi3, hi4, hi5, hi6⟩, ⟨-, hl1, hl2, hl3, hl4⟩,
    ⟨-, -, -, -⟩, ⟨hdm, hdc, hdb⟩, ⟨hmc, hmb⟩, hcb, -⟩ := hnodes
  refine ⟨?_, ?_, ?_, ?_, ?_⟩
  · unfold create_stretch_ik_chain
    simp only [hf1, hf2, hf3, hf4, hf5, hf6, hattr, hmeta, hattr2,
      Bool.false_eq_true, if_false, if_true, List.append_assoc,
      List.cons_append, List.nil_append, List.singleton_append]
  · rw [create_stretch_state env ik_handle start_jnt mid_jnt end_jnt name
      clamp_min hf1 hf2 hf3 hf4 hf5 hf6]
    exact (stretchChainEval start_jnt mid_jnt
      (stretchIkTransform env ik_handle) _ _ _ _ _ _ _ d b hsm
      hcb hmb hmc hdb hdc hdm hi6 hi5 hi4 hi3 hi2 hi1).1
  · rw [create_stretch_state env ik_handle start_jnt mid_jnt end_jnt name
      clamp_min hf1 hf2 hf3 hf4 hf5 hf6]
    exact (stretchChainEval start_jnt mid_jnt
      (stretchIkTransform env ik_handle) _ _ _ _ _ _ _ d b hsm
      hcb hmb hmc hdb hdc hdm hi6 hi5 hi4 hi3 hi2 hi1).2
  · intro rest
    norm_num [multiplyDivideOutputX]
  · intro x
    norm_num [conditionOutColorR]

/-- C2 witness: a concrete two-segment chain with rest length 4, measured
distance 6 and stretch 1. -/
theorem C2_stretch_network_witness :
    plugValue
      (buildState (create_stretch_ik_chain stretchWitnessEnv
        "ikh" "j1" "j2" "j3" (some "S") true true))
      (stretchExt (stretchDistNode (stretchBaseName "j1" (some "S")))
        (stretchIkTransform stretchWitnessEnv "ikh") 6 1) 12
      ("j1", "scaleX") =
      some (blendColorsOutputR 1
        (conditionOutColorR 2
          (multiplyDivideOutputX 2 6
            (stretchWitnessEnv.xformDist "j1" "j2" +
              stretchWitnessEnv.xformDist "j2" "j3")) 1
          (multiplyDivideOutputX 2 6
            (stretchWitnessEnv.xformDist "j1" "j2" +
              stretchWitnessEnv.xformDist "j2" "j3")) 1) 1) :=
  (C2_stretch_network stretchWitnessEnv "ikh" "j1" "j2" "j3" (some "S") true
    6 1 (by decide) (by decide) (by decide) (by decide) (by decide)
    (by decide) (by decide) (by decide) (by decide) (by decide)
    (by decide)).2.1
